import Mathlib

/-!
Verification of the `models` package initializer (`src/models/__init__.py`).

The module re-exports the names of four collaborator modules and exposes a
lazy-singleton accessor `get_generator()` backed by the module-level slot
`_generator: MLXGenerator | None = None`.

The shallow embedding below models the module-level state explicitly
(the optional cached reference, plus a ghost counter of constructor
invocations used to state construction-count properties), and `get_generator`
as a state-passing function.  The `MLXGenerator` constructor itself lives in
`models/generator.py`, which is not part of this fragment, so it is kept
abstract: theorems quantify over an arbitrary constructor behaviour.
-/

namespace Models

/-- An exception raised by a collaborator constructor
(e.g. a model-loading failure inside `MLXGenerator()`). -/
structure ConstructionError where
  msg : String
deriving DecidableEq, Repr

/-- A generator object.  `objId` models Python object identity: two
references are "the identical instance" exactly when their `objId` agree,
and a fresh construction mints a previously unused `objId`. -/
structure MLXGenerator where
  objId : Nat
deriving DecidableEq, Repr

/-- Modelled from the spec: the zero-argument `MLXGenerator()` constructor is
defined in `models/generator.py`, which is missing from this fragment; the
spec only says the generator is "constructed with no arguments by the
accessor" and that construction may fail (e.g. model-loading failure).  We
therefore keep the constructor abstract: an arbitrary behaviour which, given
the ghost count of constructor invocations so far (used solely to mint a
fresh object identity), either returns a new object or raises. -/
def Constructor : Type := Nat → Except ConstructionError MLXGenerator

/-- The module-level state of `models/__init__.py`: the `_generator` slot
(line 24) and a ghost counter of `MLXGenerator()` constructor invocations. -/
structure ModuleState where
  _generator : Option MLXGenerator
  ctorCalls : Nat
deriving DecidableEq, Repr

/-- The state established at module import time:
`_generator: MLXGenerator | None = None` (line 24); no constructor has run. -/
def initialState : ModuleState := ⟨none, 0⟩

/-- Shallow embedding of `get_generator()` (lines 27–36):

```python
def get_generator() -> MLXGenerator:
    global _generator
    if _generator is None:
        _generator = MLXGenerator()
    return _generator
```

Returns the call's outcome (normal return, or a propagated constructor
exception) together with the post-state.  When the constructor raises, the
assignment to `_generator` never happens, so the slot keeps its value. -/
def get_generator (construct : Constructor) (s : ModuleState) :
    Except ConstructionError MLXGenerator × ModuleState :=
  match s._generator with
  | some g => (.ok g, s)
  | none =>
    match construct s.ctorCalls with
    | .ok g => (.ok g, ⟨some g, s.ctorCalls + 1⟩)
    | .error e => (.error e, ⟨none, s.ctorCalls + 1⟩)

/-- Outcomes and final state of `n` successive calls to `get_generator()`. -/
def runCalls (construct : Constructor) :
    Nat → ModuleState → List (Except ConstructionError MLXGenerator) × ModuleState
  | 0, s => ([], s)
  | n + 1, s =>
    let p := get_generator construct s
    let q := runCalls construct n p.2
    (p.1 :: q.1, q.2)

/-- The singleton lifecycle state "Initialized": an instance is cached. -/
def Initialized (s : ModuleState) : Bool :=
  s._generator.isSome

/-- A sample constructor that always succeeds, minting the invocation count
as the new object's identity.  Used only by witnesses. -/
def okCtor : Constructor := fun n => .ok ⟨n⟩

/-- A sample constructor that always raises.  Used only by witnesses. -/
def failCtor : Constructor := fun _ => .error ⟨"model load failed"⟩

/-- The kind of a module-level binding: a name imported from a collaborator
module, a function defined here, or a module-level variable. -/
inductive BindingKind where
  | importedName
  | moduleFun
  | moduleVar
deriving DecidableEq, Repr

/-- A name bound in the module namespace together with its kind. -/
structure Binding where
  name : String
  kind : BindingKind
deriving DecidableEq, Repr

/-- The names bound at module level in `models/__init__.py`: the eight
collaborator names imported on lines 7–10, the `_generator` slot (line 24)
and the `get_generator` function (line 27). -/
def moduleBindings : List Binding :=
  [⟨"MLXGenerator", .importedName⟩,
   ⟨"MLXModelLoader", .importedName⟩,
   ⟨"ModelConfig", .importedName⟩,
   ⟨"PromptBuilder", .importedName⟩,
   ⟨"ResponseTemplate", .importedName⟩,
   ⟨"TemplateMatcher", .importedName⟩,
   ⟨"TemplateMatch", .importedName⟩,
   ⟨"SentenceModelError", .importedName⟩,
   ⟨"_generator", .moduleVar⟩,
   ⟨"get_generator", .moduleFun⟩]

/-- The public export list `__all__` (lines 12–21), in source order. -/
def all_exports : List String :=
  ["MLXGenerator", "MLXModelLoader", "ModelConfig", "PromptBuilder",
   "ResponseTemplate", "SentenceModelError", "TemplateMatcher", "TemplateMatch"]

section Lemmas

theorem get_generator_cached (construct : Constructor) (s : ModuleState)
    (g : MLXGenerator) (h : s._generator = some g) :
    get_generator construct s = (.ok g, s) := by
  simp [get_generator, h]

theorem get_generator_fresh_ok (construct : Constructor) (s : ModuleState)
    (g : MLXGenerator) (hs : s._generator = none)
    (hc : construct s.ctorCalls = .ok g) :
    get_generator construct s = (.ok g, ⟨some g, s.ctorCalls + 1⟩) := by
  simp [get_generator, hs, hc]

theorem get_generator_fresh_err (construct : Constructor) (s : ModuleState)
    (e : ConstructionError) (hs : s._generator = none)
    (hc : construct s.ctorCalls = .error e) :
    get_generator construct s = (.error e, ⟨none, s.ctorCalls + 1⟩) := by
  simp [get_generator, hs, hc]

theorem runCalls_cached (construct : Constructor) (n : Nat) (s : ModuleState)
    (g : MLXGenerator) (h : s._generator = some g) :
    runCalls construct n s = (List.replicate n (.ok g), s) := by
  induction n with
  | zero => simp [runCalls]
  | succ m ih =>
    simp [runCalls, get_generator_cached construct s g h, ih, List.replicate]

end Lemmas

/-- C1 — Singleton identity: for every sequence of N ≥ 1 calls to
`get_generator()` within one process lifetime (no reset mechanism, and the
constructor succeeding whenever invoked), all N returned references are the
identical instance. -/
theorem singleton_identity (construct : Constructor) (N : Nat) (hN : 1 ≤ N)
    (hc : ∀ k, ∃ g, construct k = Except.ok g) :
    ∃ g, (runCalls construct N initialState).1 = List.replicate N (Except.ok g) := by
  obtain ⟨m, rfl⟩ : ∃ m, N = m + 1 := ⟨N - 1, (Nat.succ_pred_eq_of_pos hN).symm⟩
  obtain ⟨g, hg⟩ := hc 0
  refine ⟨g, ?_⟩
  have h1 : get_generator construct initialState = (.ok g, ⟨some g, 1⟩) :=
    get_generator_fresh_ok construct initialState g rfl hg
  simp [runCalls, h1, runCalls_cached construct m ⟨some g, 1⟩ g rfl, List.replicate]

/-- Witness for C1: three calls with an always-succeeding constructor all
return the same instance. -/
theorem singleton_identity_witness :
    1 ≤ 3 ∧ ∃ g, (runCalls okCtor 3 initialState).1 = List.replicate 3 (Except.ok g) :=
  ⟨by decide, singleton_identity okCtor 3 (by decide) (fun k => ⟨⟨k⟩, rfl⟩)⟩

/-- C2 — Construction count: under single-threaded access, after any K ≥ 1
calls to `get_generator()` (with a succeeding constructor), the constructor
has been invoked exactly once, regardless of K. -/
theorem construction_count (construct : Constructor) (K : Nat) (hK : 1 ≤ K)
    (hc : ∀ k, ∃ g, construct k = Except.ok g) :
    (runCalls construct K initialState).2.ctorCalls = 1 := by
  obtain ⟨m, rfl⟩ : ∃ m, K = m + 1 := ⟨K - 1, (Nat.succ_pred_eq_of_pos hK).symm⟩
  obtain ⟨g, hg⟩ := hc 0
  have h1 : get_generator construct initialState = (.ok g, ⟨some g, 1⟩) :=
    get_generator_fresh_ok construct initialState g rfl hg
  simp [runCalls, h1, runCalls_cached construct m ⟨some g, 1⟩ g rfl]

/-- Witness for C2: five calls with an always-succeeding constructor leave
the invocation counter at one. -/
theorem construction_count_witness :
    1 ≤ 5 ∧ (runCalls okCtor 5 initialState).2.ctorCalls = 1 :=
  ⟨by decide, construction_count okCtor 5 (by decide) (fun k => ⟨⟨k⟩, rfl⟩)⟩

/-- C3 — Behaviour of `get_generator()`: if the process-wide optional state
is absent, the call constructs a new generator (zero-argument constructor)
and stores the reference; if present, it returns the existing reference
with the state unchanged. -/
theorem get_generator_spec (construct : Constructor) (s : ModuleState) :
    (∀ g, s._generator = none → construct s.ctorCalls = Except.ok g →
      get_generator construct s = (Except.ok g, ⟨some g, s.ctorCalls + 1⟩)) ∧
    (∀ g, s._generator = some g → get_generator construct s = (Except.ok g, s)) :=
  ⟨fun g hs hc => get_generator_fresh_ok construct s g hs hc,
   fun g h => get_generator_cached construct s g h⟩

/-- Witness for C3: both branches evaluated at concrete states. -/
theorem get_generator_spec_witness :
    get_generator okCtor initialState = (Except.ok ⟨0⟩, ⟨some ⟨0⟩, 1⟩) ∧
    get_generator okCtor ⟨some ⟨0⟩, 1⟩ = (Except.ok ⟨0⟩, ⟨some ⟨0⟩, 1⟩) :=
  ⟨(get_generator_spec okCtor initialState).1 ⟨0⟩ rfl rfl,
   (get_generator_spec okCtor ⟨some ⟨0⟩, 1⟩).2 ⟨0⟩ rfl⟩

/-- C4 — Lazy construction: at module-import time no constructor has run
(the slot is empty and the invocation counter is zero); the constructor is
invoked exactly upon the first call to `get_generator()`. -/
theorem lazy_construction :
    initialState.ctorCalls = 0 ∧ initialState._generator = none ∧
    ∀ (construct : Constructor) (g : MLXGenerator), construct 0 = Except.ok g →
      (get_generator construct initialState).2.ctorCalls = 1 := by
  refine ⟨rfl, rfl, fun construct g hc => ?_⟩
  rw [get_generator_fresh_ok construct initialState g rfl hc]
  rfl

/-- Witness for C4: first call with a concrete constructor runs it once. -/
theorem lazy_construction_witness :
    okCtor 0 = Except.ok ⟨0⟩ ∧ (get_generator okCtor initialState).2.ctorCalls = 1 :=
  ⟨rfl, lazy_construction.2.2 okCtor ⟨0⟩ rfl⟩

/-- C5 — Frame condition: a call made while an instance is cached leaves the
module state entirely unchanged (a side-effect-free read); the first call,
made with the slot empty and a succeeding constructor, mutates the state
only by caching the new reference (and advancing the ghost counter). -/
theorem frame_effects (construct : Constructor) (s : ModuleState) :
    (s._generator.isSome → (get_generator construct s).2 = s) ∧
    (∀ g, s._generator = none → construct s.ctorCalls = Except.ok g →
      (get_generator construct s).2 = ⟨some g, s.ctorCalls + 1⟩) := by
  constructor
  · intro h
    obtain ⟨g, hg⟩ := Option.isSome_iff_exists.mp h
    simp [get_generator_cached construct s g hg]
  · intro g hs hc
    simp [get_generator_fresh_ok construct s g hs hc]

/-- Witness for C5: a cached-state call is a pure read; the first call sets
the cache. -/
theorem frame_effects_witness :
    (get_generator okCtor ⟨some ⟨0⟩, 1⟩).2 = ⟨some ⟨0⟩, 1⟩ ∧
    (get_generator okCtor initialState).2 = ⟨some ⟨0⟩, 1⟩ :=
  ⟨(frame_effects okCtor ⟨some ⟨0⟩, 1⟩).1 rfl,
   (frame_effects okCtor initialState).2 ⟨0⟩ rfl rfl⟩

/-- C6 — Error propagation: when the slot is empty and the constructor
raises, `get_generator()` propagates exactly that error, untranslated, to
its caller. -/
theorem error_propagation (construct : Constructor) (s : ModuleState)
    (e : ConstructionError) (hs : s._generator = none)
    (hc : construct s.ctorCalls = Except.error e) :
    (get_generator construct s).1 = Except.error e := by
  simp [get_generator_fresh_err construct s e hs hc]

/-- Witness for C6: a failing constructor's error reaches the caller. -/
theorem error_propagation_witness :
    (get_generator failCtor initialState).1 = Except.error ⟨"model load failed"⟩ :=
  error_propagation failCtor initialState ⟨"model load failed"⟩ rfl rfl

/-- C7 — One-way lifecycle: the singleton state starts Uninitialized; once
Initialized, any further call leaves the state untouched (so it never
returns to Uninitialized); the one transition is triggered by the first
successful call. -/
theorem one_way_lifecycle :
    Initialized initialState = false ∧
    (∀ (construct : Constructor) (s : ModuleState), Initialized s →
      (get_generator construct s).2 = s) ∧
    (∀ (construct : Constructor) (g : MLXGenerator), construct 0 = Except.ok g →
      Initialized (get_generator construct initialState).2) := by
  refine ⟨rfl, fun construct s h => ?_, fun construct g hc => ?_⟩
  · have h' : s._generator.isSome = true := h
    obtain ⟨g, hg⟩ := Option.isSome_iff_exists.mp h'
    simp [get_generator_cached construct s g hg]
  · rw [get_generator_fresh_ok construct initialState g rfl hc]
    rfl

/-- Witness for C7: a call in the Initialized state preserves it, and the
first successful call reaches it. -/
theorem one_way_lifecycle_witness :
    (get_generator okCtor ⟨some ⟨0⟩, 1⟩).2 = ⟨some ⟨0⟩, 1⟩ ∧
    Initialized (get_generator okCtor initialState).2 :=
  ⟨one_way_lifecycle.2.1 okCtor ⟨some ⟨0⟩, 1⟩ rfl,
   one_way_lifecycle.2.2 okCtor ⟨0⟩ rfl⟩

/-- C8 — Re-export completeness: every name in `__all__` is bound in the
module namespace (hence importable from the package), and `get_generator`
is the sole function the module defines beyond the re-exported names. -/
theorem reexport_completeness :
    (∀ n ∈ all_exports, n ∈ moduleBindings.map Binding.name) ∧
    (moduleBindings.filter (fun b => b.kind == BindingKind.moduleFun)).map Binding.name
      = ["get_generator"] := by
  decide

/-- Witness for C8: a concrete exported name is bound in the module. -/
theorem reexport_completeness_witness :
    "MLXGenerator" ∈ all_exports ∧ "MLXGenerator" ∈ moduleBindings.map Binding.name :=
  ⟨by decide, reexport_completeness.1 "MLXGenerator" (by decide)⟩

/-- C9 — Atomicity on construction failure: if the constructor raises
during a call made with the slot empty, the slot stays empty, and a
subsequent call attempts construction again (returning the retried
constructor's fresh instance). -/
theorem failure_atomicity (construct : Constructor) (s : ModuleState)
    (e : ConstructionError) (hs : s._generator = none)
    (hc : construct s.ctorCalls = Except.error e) :
    (get_generator construct s).2._generator = none ∧
    ∀ (retry : Constructor) (g : MLXGenerator),
      retry (get_generator construct s).2.ctorCalls = Except.ok g →
      (get_generator retry (get_generator construct s).2).1 = Except.ok g := by
  have h := get_generator_fresh_err construct s e hs hc
  refine ⟨by simp [h], fun retry g hr => ?_⟩
  rw [h] at hr ⊢
  rw [get_generator_fresh_ok retry ⟨none, s.ctorCalls + 1⟩ g rfl hr]

/-- Witness for C9: a failed first call leaves the slot empty and the next
call constructs. -/
theorem failure_atomicity_witness :
    (get_generator failCtor initialState).2._generator = none ∧
    (get_generator okCtor (get_generator failCtor initialState).2).1 = Except.ok ⟨1⟩ :=
  ⟨(failure_atomicity failCtor initialState ⟨"model load failed"⟩ rfl rfl).1,
   (failure_atomicity failCtor initialState ⟨"model load failed"⟩ rfl rfl).2 okCtor ⟨1⟩ rfl⟩

/-- C10 — Return postcondition: whenever `get_generator()` returns
normally, the post-state caches exactly the returned reference (so the
state is Initialized and the accessor never returns the empty value of the
optional slot). -/
theorem return_postcondition (construct : Constructor) (s : ModuleState)
    (g : MLXGenerator) (h : (get_generator construct s).1 = Except.ok g) :
    (get_generator construct s).2._generator = some g := by
  cases hs : s._generator with
  | some g0 =>
    rw [get_generator_cached construct s g0 hs] at h ⊢
    simp at h ⊢
    rw [hs, h]
  | none =>
    cases hc : construct s.ctorCalls with
    | ok g0 =>
      rw [get_generator_fresh_ok construct s g0 hs hc] at h ⊢
      simp at h ⊢
      exact h
    | error e =>
      rw [get_generator_fresh_err construct s e hs hc] at h
      simp at h

/-- Witness for C10: a normal return caches the returned instance. -/
theorem return_postcondition_witness :
    (get_generator okCtor initialState).2._generator = some ⟨0⟩ :=
  return_postcondition okCtor initialState ⟨0⟩ rfl

end Models
